import Mathlib

/-!
Shallow embedding of the server excerpt:
  - src/server/src/services/theme-service.ts  (ThemeService)
  - src/server/src/controllers/user-controller.ts  (UserController)

Database state is passed explicitly (the themes table as a list of rows).
Services that are referenced by the controller but whose code is not part of
the excerpt (user-service, profile-service) are modelled by their observable
outcomes: each controller handler takes the outcome of each service call it
makes as an explicit argument, and additionally records the mutating calls it
performs as an effect trace.  A thrown JavaScript error is either an HttpError
carrying a status code, or any other exception (modelled by a tag).
-/

namespace PractiseLink

/-- The tagged error of src/server/src/utils/http-error.ts: an HTTP status
code together with a human-readable message. -/
structure HttpError where
  statusCode : Nat
  message : String
deriving DecidableEq, Repr

namespace StatusCodes

def OK : Nat := 200

def BAD_REQUEST : Nat := 400

def UNAUTHORIZED : Nat := 401

def NOT_FOUND : Nat := 404

def CONFLICT : Nat := 409

def INTERNAL_SERVER_ERROR : Nat := 500

def NOT_IMPLEMENTED : Nat := 501

end StatusCodes

/-- Color palette of a theme (structured key-value color assignments). -/
abbrev ThemeColors := List (String × String)

/-- A row of the app.themes table: columns
(id, user_id, label, colors, custom_css, custom_html, global).
user_id is nullable (global themes keep it for auditing). -/
structure Theme where
  id : String
  user_id : Option String
  label : String
  colors : Option ThemeColors
  custom_css : Option String
  custom_html : Option String
  global : Bool
deriving DecidableEq, Repr

/-- The themes table. -/
abbrev ThemeDb := List Theme

/-- ThemeService.getTheme: `select * from app.themes where id=$1`; throws
NOT_FOUND when no row matches, otherwise returns the first row. -/
def getTheme (db : ThemeDb) (themeId : String) : Except HttpError Theme :=
  match db.filter (fun t => t.id == themeId) with
  | [] => Except.error ⟨StatusCodes.NOT_FOUND, "The theme couldn\x27t be found."⟩
  | t :: _ => Except.ok t

/-- ThemeService.listThemes: with includeGlobal,
`select * from app.themes where user_id=$1 or global=true`, otherwise
`select * from app.themes where user_id=$1`; throws NOT_FOUND when the result
set is empty. -/
def listThemes (db : ThemeDb) (userId : String) (includeGlobal : Bool) :
    Except HttpError (List Theme) :=
  let rows :=
    if includeGlobal then
      db.filter (fun t => t.user_id == some userId || t.global)
    else
      db.filter (fun t => t.user_id == some userId)
  match rows with
  | [] => Except.error ⟨StatusCodes.NOT_FOUND, "No themes were found."⟩
  | r :: rs => Except.ok (r :: rs)

/-- The WHERE clause `id=$5 and user_id=$6` shared by updateTheme and
deleteTheme: a row matches only when both the id and the owning user match. -/
def themeMatch (themeId userId : String) (t : Theme) : Bool :=
  t.id == themeId && t.user_id == some userId

/-- The SET clause of updateTheme applied to a single row. -/
def applyThemeUpdate (label : String) (colors : Option ThemeColors)
    (customCss customHtml : Option String) (t : Theme) : Theme :=
  { t with label := label, colors := colors,
           custom_css := customCss, custom_html := customHtml }

/-- ThemeService.updateTheme:
`update app.themes set ... where id=$5 and user_id=$6 returning *`;
throws NOT_FOUND when no row matched.  Returns the result together with the
table state after the statement. -/
def updateTheme (db : ThemeDb) (themeId userId label : String)
    (colors : Option ThemeColors) (customCss customHtml : Option String) :
    Except HttpError Theme × ThemeDb :=
  let updated := db.map (fun t =>
    if themeMatch themeId userId t then
      applyThemeUpdate label colors customCss customHtml t
    else t)
  match updated.filter (themeMatch themeId userId) with
  | [] =>
    (Except.error ⟨StatusCodes.NOT_FOUND,
      "Failed to update the theme because the id couldn\x27t be found."⟩, updated)
  | r :: _ => (Except.ok r, updated)

/-- ThemeService.deleteTheme:
`delete from app.themes where id=$1 and user_id=$2 returning *`;
throws NOT_FOUND when no row matched.  Returns the result together with the
table state after the statement. -/
def deleteTheme (db : ThemeDb) (themeId userId : String) :
    Except HttpError Theme × ThemeDb :=
  let remaining := db.filter (fun t => !(themeMatch themeId userId t))
  match db.filter (themeMatch themeId userId) with
  | [] =>
    (Except.error ⟨StatusCodes.NOT_FOUND,
      "Failed to delete the theme because the id couldn\x27t be found."⟩, remaining)
  | r :: _ => (Except.ok r, remaining)

/-- The visibility notion of the spec invariant (section 3): a theme is
visible to a user iff it is global or owned by that user.  This definition
follows the spec wording, to be compared with the read operations. -/
def visibleTo (t : Theme) (userId : String) : Bool :=
  t.global || t.user_id == some userId

/-! ## The user controller -/

/-- A thrown JavaScript error as the controller catch blocks see it: either
an HttpError instance, or any other exception (identified by a tag). -/
inductive Err where
  | http (e : HttpError)
  | js (tag : String)
deriving DecidableEq, Repr

/-- A user row as the controller observes it (id, email, display name,
creation timestamp). -/
structure User where
  id : String
  email : String
  name : String
  createdOn : String
deriving DecidableEq, Repr

/-- A profile row: id, owning user id, handle. -/
structure Profile where
  id : String
  userId : String
  handle : String
deriving DecidableEq, Repr

/-- The active-profile association maintained by
userService.setActiveProfile. -/
structure ActiveProfileRow where
  userId : String
  profileId : String
deriving DecidableEq, Repr

/-- The JWT payload built by the controller: `{email: user.email}`. -/
structure JwtPayload where
  email : String
deriving DecidableEq, Repr

/-- A token produced by jwt.sign(payload, secret, \x7bexpiresIn: ...\x7d),
modelled by its inputs: payload, signing secret, and expiry horizon in
hours after issuance. -/
structure SignedToken where
  payload : JwtPayload
  secret : String
  expiresInHours : Nat
deriving DecidableEq, Repr

/-- jwt.sign as the controller calls it. -/
def jwtSign (p : JwtPayload) (secret : String) (hours : Nat) : SignedToken :=
  ⟨p, secret, hours⟩

/-- The shape returned by userService.loginUser. -/
structure LoginResult where
  user : User
  activeProfile : Option Profile
  token : SignedToken
deriving DecidableEq, Repr

/-- Possible response bodies sent by the user controller. -/
inductive ReplyBody where
  | err (message : String)
  | success (message : String)
  | login (r : LoginResult)
  | created (user : User) (activeProfile : Profile) (token : SignedToken)
  | userObj (u : User)
  | activeRow (a : ActiveProfileRow)
deriving DecidableEq, Repr

/-- Observable outcome of one handler invocation: either a reply with an
HTTP status and a body, or an error propagating uncaught out of the handler
(to the default handler of the framework). -/
inductive HandlerResult where
  | reply (status : Nat) (body : ReplyBody)
  | uncaught (tag : String)
deriving DecidableEq, Repr

/-- State-affecting calls a handler performs, in order: mutating service
calls and analytics emissions.  Read-only service calls are captured by the
outcome arguments of each handler instead. -/
inductive Effect where
  | svcCreateUser (email password name : String)
  | svcCreateProfile (userId handle : String)
  | svcSetActiveProfile (userId profileId : String)
  | svcSetPasswordWithToken (token password : String)
  | svcSendPasswordResetEmail (email : String)
  | track (event distinctId : String)
  | peopleSet (userId : String)
deriving DecidableEq, Repr

/-- JavaScript falsiness of an optional request-body string field:
`!body.field` is true when the field is absent or the empty string. -/
def falsy : Option String → Bool
  | none => true
  | some s => s.isEmpty

/-- Request body of /user/login. -/
structure LoginUserBody where
  email : Option String
  password : Option String
deriving DecidableEq, Repr

/-- UserController.LoginUser.  `loginRes` is the outcome of
userService.loginUser; `mix` tells whether the optional analytics client is
configured. -/
def LoginUser (body : LoginUserBody) (loginRes : Except Err LoginResult)
    (mix : Bool) : HandlerResult × List Effect :=
  if falsy body.email then
    (.reply StatusCodes.BAD_REQUEST (.err "No email was provided."), [])
  else if falsy body.password then
    (.reply StatusCodes.BAD_REQUEST (.err "No password was provided."), [])
  else
    match loginRes with
    | Except.ok r =>
      (.reply StatusCodes.OK (.login r),
        if mix then [Effect.track "user logged in" r.user.id] else [])
    | Except.error (Err.http e) => (.reply e.statusCode (.err e.message), [])
    | Except.error (Err.js t) => (.uncaught t, [])

/-- Request body of /user/create (name and handle are declared non-optional
in the request interface). -/
structure CreateUserBody where
  email : Option String
  password : Option String
  name : String
  handle : String
deriving DecidableEq, Repr

/-- Outcomes of the service calls /user/create can make, in program order:
profileService.getProfileByHandle(handle, false), userService.createUser,
profileService.createProfile, userService.setActiveProfile. -/
structure CreateUserEnv where
  handleCheck : Except Err Profile
  createUserRes : Except Err User
  createProfileRes : Except Err Profile
  setActiveRes : Except Err ActiveProfileRow
deriving Repr

def conflictMsg : String :=
  "The profile couldn\x27t be added because it is already being used."

/-- The creation sequence of UserController.CreateUser after the handle
check: createUser, createProfile, setActiveProfile, token signing, analytics.
Errors here reach the outer catch: HttpError becomes a reply, anything else
propagates uncaught. -/
def createUserSteps (body : CreateUserBody) (env : CreateUserEnv)
    (secret : String) (mix : Bool) : HandlerResult × List Effect :=
  let eff1 := [Effect.svcCreateUser (body.email.getD "") (body.password.getD "") body.name]
  match env.createUserRes with
  | Except.error (Err.http e) => (.reply e.statusCode (.err e.message), eff1)
  | Except.error (Err.js t) => (.uncaught t, eff1)
  | Except.ok user =>
    let eff2 := eff1 ++ [Effect.svcCreateProfile user.id body.handle]
    match env.createProfileRes with
    | Except.error (Err.http e) => (.reply e.statusCode (.err e.message), eff2)
    | Except.error (Err.js t) => (.uncaught t, eff2)
    | Except.ok profile =>
      let eff3 := eff2 ++ [Effect.svcSetActiveProfile user.id profile.id]
      match env.setActiveRes with
      | Except.error (Err.http e) => (.reply e.statusCode (.err e.message), eff3)
      | Except.error (Err.js t) => (.uncaught t, eff3)
      | Except.ok _ =>
        let token := jwtSign ⟨user.email⟩ secret 168
        let eff4 := eff3 ++
          (if mix then [Effect.track "user created" user.id,
                        Effect.peopleSet user.id] else [])
        (.reply StatusCodes.OK (.created user profile token), eff4)

/-- UserController.CreateUser.  The handle check sits in an inner
try/catch: a found profile yields CONFLICT; a caught HttpError with a status
other than NOT_FOUND is returned as a reply; a caught HttpError with status
NOT_FOUND, or any caught non-HttpError, is swallowed and creation
proceeds. -/
def CreateUser (body : CreateUserBody) (env : CreateUserEnv)
    (secret : String) (mix : Bool) : HandlerResult × List Effect :=
  if falsy body.email then
    (.reply StatusCodes.BAD_REQUEST (.err "No email was provided."), [])
  else if falsy body.password then
    (.reply StatusCodes.BAD_REQUEST (.err "No password was provided."), [])
  else
    match env.handleCheck with
    | Except.ok _ => (.reply StatusCodes.CONFLICT (.err conflictMsg), [])
    | Except.error (Err.http he) =>
      if he.statusCode ≠ StatusCodes.NOT_FOUND then
        (.reply he.statusCode (.err he.message), [])
      else createUserSteps body env secret mix
    | Except.error (Err.js _) => createUserSteps body env secret mix

/-- Request body of /user/request-reset-password. -/
structure UserRequestResetPasswordBody where
  email : Option String
deriving DecidableEq, Repr

/-- UserController.UserRequestResetPassword.  A missing email is answered
with status NOT_FOUND and the message "No email was provided."; otherwise
userService.sendPasswordResetEmail is called (its outcome is `sendRes`),
analytics are emitted on success when configured, and a generic success
acknowledgment is returned; errors reach the outer catch. -/
def UserRequestResetPassword (body : UserRequestResetPasswordBody)
    (sendRes : Except Err User) (mix : Bool) : HandlerResult × List Effect :=
  if falsy body.email then
    (.reply StatusCodes.NOT_FOUND (.err "No email was provided."), [])
  else
    let eff := [Effect.svcSendPasswordResetEmail (body.email.getD "")]
    match sendRes with
    | Except.ok user =>
      (.reply StatusCodes.OK (.success "Successfully sent password reset email."),
        eff ++ (if mix then [Effect.track "user requested password reset" user.id] else []))
    | Except.error (Err.http e) => (.reply e.statusCode (.err e.message), eff)
    | Except.error (Err.js t) => (.uncaught t, eff)

/-- Request body of /user/reset-password. -/
structure ResetUserPasswordBody where
  token : Option String
  password : Option String
deriving DecidableEq, Repr

/-- UserController.ResetUserPassword.  Both missing-field branches send the
literal message "No email was provided.". -/
def ResetUserPassword (body : ResetUserPasswordBody)
    (setRes : Except Err Unit) : HandlerResult × List Effect :=
  if falsy body.token then
    (.reply StatusCodes.BAD_REQUEST (.err "No email was provided."), [])
  else if falsy body.password then
    (.reply StatusCodes.BAD_REQUEST (.err "No email was provided."), [])
  else
    let eff := [Effect.svcSetPasswordWithToken (body.token.getD "") (body.password.getD "")]
    match setRes with
    | Except.ok _ => (.reply StatusCodes.OK (.success "Successfully changed password."), eff)
    | Except.error (Err.http e) => (.reply e.statusCode (.err e.message), eff)
    | Except.error (Err.js t) => (.uncaught t, eff)

def stubMsg : String := "Sorry, this is not implemented yet."

/-- UserController.UpdateUser: explicit stub.  The body is of arbitrary type
(any input, including malformed bodies); no service or analytics call is
made. -/
def UpdateUser {β : Type} (_body : β) : HandlerResult × List Effect :=
  (.reply StatusCodes.NOT_IMPLEMENTED (.err stubMsg), [])

/-- UserController.DeleteUser: explicit stub. -/
def DeleteUser {β : Type} (_body : β) : HandlerResult × List Effect :=
  (.reply StatusCodes.NOT_IMPLEMENTED (.err stubMsg), [])

/-- UserController.GetUserDataPackage: explicit stub. -/
def GetUserDataPackage {β : Type} (_body : β) : HandlerResult × List Effect :=
  (.reply StatusCodes.NOT_IMPLEMENTED (.err stubMsg), [])

/-- Request body of /user/set-active-profile (authUser attached by the
authentication middleware). -/
structure SetActiveProfileBody where
  authUser : User
  newProfileId : Option String
deriving DecidableEq, Repr

/-- Outcomes of the service calls /user/set-active-profile can make:
profileService.getProfile(newProfileId), then
userService.setActiveProfile(user.id, newProfileId). -/
structure SetActiveProfileEnv where
  getProfileRes : Except Err Profile
  setActiveRes : Except Err ActiveProfileRow
deriving Repr

/-- UserController.SetActiveProfile.  The missing-field branch sends the
literal message "No email was provided."; a profile owned by a different
user yields UNAUTHORIZED; errors reach the outer catch. -/
def SetActiveProfile (body : SetActiveProfileBody) (env : SetActiveProfileEnv)
    (mix : Bool) : HandlerResult × List Effect :=
  if falsy body.newProfileId then
    (.reply StatusCodes.BAD_REQUEST (.err "No email was provided."), [])
  else
    match env.getProfileRes with
    | Except.error (Err.http e) => (.reply e.statusCode (.err e.message), [])
    | Except.error (Err.js t) => (.uncaught t, [])
    | Except.ok newProfile =>
      if body.authUser.id ≠ newProfile.userId then
        (.reply StatusCodes.UNAUTHORIZED (.err "The user doesn\x27t own the profile."), [])
      else
        let effTrack :=
          if mix then [Effect.track "user set active profile" body.authUser.id] else []
        let eff := effTrack ++
          [Effect.svcSetActiveProfile body.authUser.id (body.newProfileId.getD "")]
        match env.setActiveRes with
        | Except.ok a => (.reply StatusCodes.OK (.activeRow a), eff)
        | Except.error (Err.http e) => (.reply e.statusCode (.err e.message), eff)
        | Except.error (Err.js t) => (.uncaught t, eff)

/-- Modelled from the spec: ProfileService.getProfile is not part of the
excerpt.  Per the spec (services throw status-carrying errors for expected
failure modes; not-found errors for missing resources map to 404, as the
theme service does for getTheme), it returns the profile with the given id
or throws a NOT_FOUND HttpError. -/
def getProfileSvc (profiles : List Profile) (profileId : String) :
    Except Err Profile :=
  match profiles.filter (fun p => p.id == profileId) with
  | [] => Except.error (Err.http ⟨StatusCodes.NOT_FOUND, "The profile couldn\x27t be found."⟩)
  | p :: _ => Except.ok p

/-- SetActiveProfile with the profile lookup instantiated by the
spec-modelled profile store. -/
def SetActiveProfileDb (body : SetActiveProfileBody) (profiles : List Profile)
    (setActiveRes : Except Err ActiveProfileRow) (mix : Bool) :
    HandlerResult × List Effect :=
  SetActiveProfile body
    ⟨getProfileSvc profiles (body.newProfileId.getD ""), setActiveRes⟩ mix

/-! ## Helper lemmas -/

lemma themeMatch_false_of_unowned (tid uid : String) (t : Theme)
    (h : t.id = tid → t.user_id ≠ some uid) : themeMatch tid uid t = false := by
  unfold themeMatch
  by_cases hid : t.id = tid
  · have hu := h hid
    simp [hid, hu]
  · simp [hid]

lemma filter_themeMatch_nil (db : ThemeDb) (tid uid : String)
    (h : ∀ t ∈ db, t.id = tid → t.user_id ≠ some uid) :
    db.filter (themeMatch tid uid) = [] :=
  List.filter_eq_nil_iff.mpr (fun t ht => by
    simp [themeMatch_false_of_unowned tid uid t (h t ht)])

lemma updateTheme_map_id (db : ThemeDb) (tid uid label : String)
    (colors : Option ThemeColors) (css html : Option String)
    (h : ∀ t ∈ db, t.id = tid → t.user_id ≠ some uid) :
    db.map (fun t =>
      if themeMatch tid uid t then applyThemeUpdate label colors css html t
      else t) = db := by
  have hcongr : ∀ t ∈ db,
      (if themeMatch tid uid t then applyThemeUpdate label colors css html t
       else t) = t := by
    intro t ht
    simp [themeMatch_false_of_unowned tid uid t (h t ht)]
  simpa using List.map_congr_left hcongr

lemma updateTheme_notfound (db : ThemeDb) (tid uid label : String)
    (colors : Option ThemeColors) (css html : Option String)
    (h : ∀ t ∈ db, t.id = tid → t.user_id ≠ some uid) :
    updateTheme db tid uid label colors css html =
      (Except.error ⟨StatusCodes.NOT_FOUND,
        "Failed to update the theme because the id couldn\x27t be found."⟩, db) := by
  unfold updateTheme
  simp only [updateTheme_map_id db tid uid label colors css html h,
             filter_themeMatch_nil db tid uid h]

lemma deleteTheme_notfound (db : ThemeDb) (tid uid : String)
    (h : ∀ t ∈ db, t.id = tid → t.user_id ≠ some uid) :
    deleteTheme db tid uid =
      (Except.error ⟨StatusCodes.NOT_FOUND,
        "Failed to delete the theme because the id couldn\x27t be found."⟩, db) := by
  unfold deleteTheme
  have hrem : db.filter (fun t => !(themeMatch tid uid t)) = db :=
    List.filter_eq_self.mpr (fun t ht => by
      simp [themeMatch_false_of_unowned tid uid t (h t ht)])
  simp only [hrem, filter_themeMatch_nil db tid uid h]

/-! ## Claims -/

/-- C1: for every theme id and every pair of callers, if the userId of the
caller does not match the owner of the theme, updateTheme and deleteTheme produce exactly
the same observable outcome (a NOT_FOUND error with the database state
unchanged) as the same call on a theme id that does not exist at all; the two
cases are indistinguishable to the caller. -/
theorem c1_nonowner_indistinguishable_from_missing
    (db : ThemeDb) (thm : Theme) (tid tidMissing uid label : String)
    (colors : Option ThemeColors) (css html : Option String)
    (_hmem : thm ∈ db) (_hid : thm.id = tid)
    (hOwn : thm.user_id ≠ some uid)
    (hUniq : ∀ t ∈ db, t.id = tid → t = thm)
    (hMiss : ∀ t ∈ db, t.id ≠ tidMissing) :
    updateTheme db tid uid label colors css html =
      updateTheme db tidMissing uid label colors css html ∧
    deleteTheme db tid uid = deleteTheme db tidMissing uid ∧
    updateTheme db tid uid label colors css html =
      (Except.error ⟨StatusCodes.NOT_FOUND,
        "Failed to update the theme because the id couldn\x27t be found."⟩, db) ∧
    deleteTheme db tid uid =
      (Except.error ⟨StatusCodes.NOT_FOUND,
        "Failed to delete the theme because the id couldn\x27t be found."⟩, db) := by
  have h1 : ∀ t ∈ db, t.id = tid → t.user_id ≠ some uid := by
    intro t ht htid
    rw [hUniq t ht htid]
    exact hOwn
  have h2 : ∀ t ∈ db, t.id = tidMissing → t.user_id ≠ some uid := by
    intro t ht htid
    exact absurd htid (hMiss t ht)
  have hu1 := updateTheme_notfound db tid uid label colors css html h1
  have hu2 := updateTheme_notfound db tidMissing uid label colors css html h2
  have hd1 := deleteTheme_notfound db tid uid h1
  have hd2 := deleteTheme_notfound db tidMissing uid h2
  exact ⟨hu1.trans hu2.symm, hd1.trans hd2.symm, hu1, hd1⟩

/-- Concrete witness for C1: a theme "t1" owned by user "A"; caller "B";
missing id "t2". -/
theorem c1_witness :
    updateTheme [⟨"t1", some "A", "L", none, none, none, false⟩] "t1" "B" "M" none none none =
      updateTheme [⟨"t1", some "A", "L", none, none, none, false⟩] "t2" "B" "M" none none none ∧
    deleteTheme [⟨"t1", some "A", "L", none, none, none, false⟩] "t1" "B" =
      deleteTheme [⟨"t1", some "A", "L", none, none, none, false⟩] "t2" "B" ∧
    updateTheme [⟨"t1", some "A", "L", none, none, none, false⟩] "t1" "B" "M" none none none =
      (Except.error ⟨StatusCodes.NOT_FOUND,
        "Failed to update the theme because the id couldn\x27t be found."⟩,
       [⟨"t1", some "A", "L", none, none, none, false⟩]) ∧
    deleteTheme [⟨"t1", some "A", "L", none, none, none, false⟩] "t1" "B" =
      (Except.error ⟨StatusCodes.NOT_FOUND,
        "Failed to delete the theme because the id couldn\x27t be found."⟩,
       [⟨"t1", some "A", "L", none, none, none, false⟩]) :=
  c1_nonowner_indistinguishable_from_missing
    [⟨"t1", some "A", "L", none, none, none, false⟩]
    ⟨"t1", some "A", "L", none, none, none, false⟩
    "t1" "t2" "B" "M" none none none
    (by decide) (by decide) (by decide) (by decide) (by decide)

lemma listThemes_ok_true (db : ThemeDb) (uid : String) (l : List Theme)
    (h : listThemes db uid true = Except.ok l) :
    db.filter (fun t => t.user_id == some uid || t.global) = l := by
  unfold listThemes at h
  simp only [ite_true] at h
  cases hf : db.filter (fun t => t.user_id == some uid || t.global) with
  | nil => rw [hf] at h; simp at h
  | cons r rs => rw [hf] at h; simpa using h

lemma listThemes_ok_false (db : ThemeDb) (uid : String) (l : List Theme)
    (h : listThemes db uid false = Except.ok l) :
    db.filter (fun t => t.user_id == some uid) = l := by
  unfold listThemes at h
  simp only [ite_false] at h
  cases hf : db.filter (fun t => t.user_id == some uid) with
  | nil => rw [hf] at h; simp at h
  | cons r rs => rw [hf] at h; simpa using h

/-- C4 counterexample: getTheme does not respect the visibility invariant.
The store holds a single non-global theme owned by user "A"; it is not
visible to user "B" in the sense of the invariant, yet getTheme — which takes
no caller identity at all and so serves every caller alike — returns it. -/
theorem c4_getTheme_ignores_visibility :
    getTheme [⟨"t1", some "A", "L", none, none, none, false⟩] "t1" =
      Except.ok ⟨"t1", some "A", "L", none, none, none, false⟩ ∧
    visibleTo ⟨"t1", some "A", "L", none, none, none, false⟩ "B" = false :=
  ⟨rfl, by decide⟩

/-- C4 (amended): listThemes respects the visibility invariant — every theme
it returns is global or owned by the requesting user — while getTheme fetches
purely by id: it returns the stored theme with the requested id regardless of
ownership or the global flag, with no visibility check. -/
theorem c4_read_visibility (db : ThemeDb) (uid tid : String) (g : Bool) :
    (∀ l, listThemes db uid g = Except.ok l → ∀ t ∈ l, visibleTo t uid = true) ∧
    (∀ t, getTheme db tid = Except.ok t → t ∈ db ∧ t.id = tid) := by
  constructor
  · intro l h t ht
    cases g with
    | true =>
      rw [← listThemes_ok_true db uid l h] at ht
      have hp := (List.mem_filter.mp ht).2
      simp only [Bool.or_eq_true] at hp
      unfold visibleTo
      simp only [Bool.or_eq_true]
      tauto
    | false =>
      rw [← listThemes_ok_false db uid l h] at ht
      have hp := (List.mem_filter.mp ht).2
      unfold visibleTo
      simp [hp]
  · intro t h
    unfold getTheme at h
    cases hf : db.filter (fun s => s.id == tid) with
    | nil => rw [hf] at h; simp at h
    | cons a as =>
      rw [hf] at h
      have ha : a ∈ db.filter (fun s => s.id == tid) := by
        rw [hf]; exact List.mem_cons_self a as
      have hmem := List.mem_filter.mp ha
      have hta : t = a := (by simpa using h : a = t).symm
      subst hta
      exact ⟨hmem.1, by simpa using hmem.2⟩

/-- Concrete witness for the amended C4: a global theme listed for a
non-owner "B" is visible to "B". -/
theorem c4_witness :
    visibleTo ⟨"g1", some "A", "G", none, none, none, true⟩ "B" = true :=
  (c4_read_visibility [⟨"g1", some "A", "G", none, none, none, true⟩] "B" "g1" true).1
    [⟨"g1", some "A", "G", none, none, none, true⟩] rfl
    ⟨"g1", some "A", "G", none, none, none, true⟩ (by decide)

/-- C8: listThemes with includeGlobal returns exactly the themes owned by the
user together with the global ones; without includeGlobal, exactly the themes
owned by the user; in either mode an empty result set is reported as a
NOT_FOUND error, never as an empty success list. -/
theorem c8_listThemes_exact (db : ThemeDb) (uid : String) :
    (∀ l, listThemes db uid true = Except.ok l →
       ∀ t, t ∈ l ↔ t ∈ db ∧ (t.user_id = some uid ∨ t.global = true)) ∧
    (∀ l, listThemes db uid false = Except.ok l →
       ∀ t, t ∈ l ↔ t ∈ db ∧ t.user_id = some uid) ∧
    (∀ g l, listThemes db uid g = Except.ok l → l ≠ []) ∧
    ((∀ t ∈ db, ¬(t.user_id = some uid ∨ t.global = true)) →
       listThemes db uid true =
         Except.error ⟨StatusCodes.NOT_FOUND, "No themes were found."⟩) ∧
    ((∀ t ∈ db, t.user_id ≠ some uid) →
       listThemes db uid false =
         Except.error ⟨StatusCodes.NOT_FOUND, "No themes were found."⟩) := by
  refine ⟨?_, ?_, ?_, ?_, ?_⟩
  · intro l h t
    rw [← listThemes_ok_true db uid l h, List.mem_filter]
    simp [Bool.or_eq_true]
  · intro l h t
    rw [← listThemes_ok_false db uid l h, List.mem_filter]
    simp
  · intro g l h hnil
    subst hnil
    cases g with
    | true =>
      have := listThemes_ok_true db uid [] h
      unfold listThemes at h
      simp only [ite_true, this] at h
      simp at h
    | false =>
      have := listThemes_ok_false db uid [] h
      unfold listThemes at h
      simp only [ite_false, this] at h
      simp at h
  · intro hall
    have hf : db.filter (fun t => t.user_id == some uid || t.global) = [] := by
      refine List.filter_eq_nil_iff.mpr (fun t ht => ?_)
      have := hall t ht
      simp only [Bool.or_eq_true, not_or] at this ⊢
      push_neg at this
      simp [this.1, this.2]
    unfold listThemes
    simp [hf]
  · intro hall
    have hf : db.filter (fun t => t.user_id == some uid) = [] := by
      refine List.filter_eq_nil_iff.mpr (fun t ht => ?_)
      simp [hall t ht]
    unfold listThemes
    simp [hf]

/-- Concrete witness for C8: a store with one theme of user "A" and one
global theme; listed for "A" with includeGlobal, membership matches the
claim. -/
theorem c8_witness :
    (⟨"g1", some "B", "G", none, none, none, true⟩ : Theme) ∈
      ([⟨"t1", some "A", "L", none, none, none, false⟩,
        ⟨"g1", some "B", "G", none, none, none, true⟩] : List Theme) ∧
    (⟨"g1", some "B", "G", none, none, none, true⟩ : Theme) ∈
      ([⟨"t1", some "A", "L", none, none, none, false⟩,
        ⟨"g1", some "B", "G", none, none, none, true⟩] : List Theme) ∧
      ((⟨"g1", some "B", "G", none, none, none, true⟩ : Theme).user_id = some "A" ∨
       (⟨"g1", some "B", "G", none, none, none, true⟩ : Theme).global = true) :=
  have hiff :=
    (c8_listThemes_exact
      [⟨"t1", some "A", "L", none, none, none, false⟩,
       ⟨"g1", some "B", "G", none, none, none, true⟩] "A").1
      [⟨"t1", some "A", "L", none, none, none, false⟩,
       ⟨"g1", some "B", "G", none, none, none, true⟩] rfl
      ⟨"g1", some "B", "G", none, none, none, true⟩
  ⟨by decide, hiff.mp (by decide)⟩

lemma getProfileSvc_missing (profiles : List Profile) (pid : String)
    (h : ∀ q ∈ profiles, q.id ≠ pid) :
    getProfileSvc profiles pid =
      Except.error (Err.http ⟨StatusCodes.NOT_FOUND, "The profile couldn\x27t be found."⟩) := by
  unfold getProfileSvc
  have hf : profiles.filter (fun p => p.id == pid) = [] :=
    List.filter_eq_nil_iff.mpr (fun q hq => by simp [h q hq])
  rw [hf]

/-- C2: a /user/create request whose handle is already in use (the handle
check finds a profile) is answered with CONFLICT, and no mutating call — no
user row, no profile row, no active-profile association, no analytics — is
performed: the effect trace is empty, so the state after the failed request
equals the state before it. -/
theorem c2_handle_conflict_no_partial_state
    (body : CreateUserBody) (env : CreateUserEnv) (secret : String) (mix : Bool)
    (p : Profile)
    (hE : falsy body.email = false) (hP : falsy body.password = false)
    (hFound : env.handleCheck = Except.ok p) :
    CreateUser body env secret mix =
      (.reply StatusCodes.CONFLICT (.err conflictMsg), []) := by
  unfold CreateUser
  simp [hE, hP, hFound]

/-- Concrete witness for C2: handle "abee" is taken by an existing profile. -/
theorem c2_witness :
    CreateUser ⟨some "a@b.com", some "pw", "A", "abee"⟩
      ⟨Except.ok ⟨"p0", "u0", "abee"⟩,
       Except.ok ⟨"u1", "a@b.com", "A", "t0"⟩,
       Except.ok ⟨"p1", "u1", "abee"⟩,
       Except.ok ⟨"u1", "p1"⟩⟩ "sec" false =
      (.reply StatusCodes.CONFLICT (.err conflictMsg), []) :=
  c2_handle_conflict_no_partial_state
    ⟨some "a@b.com", some "pw", "A", "abee"⟩
    ⟨Except.ok ⟨"p0", "u0", "abee"⟩,
     Except.ok ⟨"u1", "a@b.com", "A", "t0"⟩,
     Except.ok ⟨"p1", "u1", "abee"⟩,
     Except.ok ⟨"u1", "p1"⟩⟩ "sec" false
    ⟨"p0", "u0", "abee"⟩ rfl rfl rfl

/-- C3 counterexample: with an empty profile store, a /user/set-active-profile
request naming profile "p1" — a profile the caller does not own, since it does
not exist — is answered with the NOT_FOUND error of the profile service (404), not
with UNAUTHORIZED (401). -/
theorem c3_nonexistent_profile_yields_notfound :
    SetActiveProfileDb ⟨⟨"userA", "a@b.com", "A", "t0"⟩, some "p1"⟩ []
      (Except.ok ⟨"userA", "p1"⟩) false =
      (.reply StatusCodes.NOT_FOUND (.err "The profile couldn\x27t be found."), []) ∧
    StatusCodes.NOT_FOUND ≠ StatusCodes.UNAUTHORIZED :=
  ⟨rfl, by decide⟩

/-- C3 (amended): a /user/set-active-profile request naming an existing
profile the caller does not own is answered UNAUTHORIZED (401) with no
mutating call; naming a nonexistent profile is answered with the NOT_FOUND
error of the profile lookup instead. -/
theorem c3_ownership_check (body : SetActiveProfileBody) (profiles : List Profile)
    (setRes : Except Err ActiveProfileRow) (mix : Bool) (p : Profile)
    (hv : falsy body.newProfileId = false)
    (hGet : getProfileSvc profiles (body.newProfileId.getD "") = Except.ok p)
    (hOwn : body.authUser.id ≠ p.userId) :
    SetActiveProfileDb body profiles setRes mix =
      (.reply StatusCodes.UNAUTHORIZED (.err "The user doesn\x27t own the profile."), []) ∧
    (∀ profiles2 : List Profile,
       (∀ q ∈ profiles2, q.id ≠ body.newProfileId.getD "") →
       SetActiveProfileDb body profiles2 setRes mix =
         (.reply StatusCodes.NOT_FOUND (.err "The profile couldn\x27t be found."), [])) := by
  constructor
  · unfold SetActiveProfileDb SetActiveProfile
    simp [hv, hGet, hOwn]
  · intro profiles2 hmiss
    unfold SetActiveProfileDb SetActiveProfile
    simp [hv, getProfileSvc_missing profiles2 (body.newProfileId.getD "") hmiss,
          StatusCodes.NOT_FOUND]

/-- Concrete witness for the amended C3: profile "p1" exists but belongs to
"userB"; caller "userA" gets UNAUTHORIZED. -/
theorem c3_witness :
    SetActiveProfileDb ⟨⟨"userA", "a@b.com", "A", "t0"⟩, some "p1"⟩
      [⟨"p1", "userB", "bee"⟩] (Except.ok ⟨"userA", "p1"⟩) false =
      (.reply StatusCodes.UNAUTHORIZED (.err "The user doesn\x27t own the profile."), []) :=
  (c3_ownership_check ⟨⟨"userA", "a@b.com", "A", "t0"⟩, some "p1"⟩
    [⟨"p1", "userB", "bee"⟩] (Except.ok ⟨"userA", "p1"⟩) false
    ⟨"p1", "userB", "bee"⟩ rfl rfl (by decide)).1

/-- C5 counterexample: the handle check fails with an error that is not a
not-found error — a non-HttpError exception ("connection reset") — yet the
handler does not return an error response: the inner catch swallows it and
the user/profile creation steps run to completion. -/
theorem c5_js_error_swallowed :
    CreateUser ⟨some "a@b.com", some "pw", "A", "abee"⟩
      ⟨Except.error (Err.js "connection reset"),
       Except.ok ⟨"u1", "a@b.com", "A", "t0"⟩,
       Except.ok ⟨"p1", "u1", "abee"⟩,
       Except.ok ⟨"u1", "p1"⟩⟩ "sec" false =
      (.reply StatusCodes.OK
         (.created ⟨"u1", "a@b.com", "A", "t0"⟩ ⟨"p1", "u1", "abee"⟩
           (jwtSign ⟨"a@b.com"⟩ "sec" 168)),
       [Effect.svcCreateUser "a@b.com" "pw" "A",
        Effect.svcCreateProfile "u1" "abee",
        Effect.svcSetActiveProfile "u1" "p1"]) := rfl

/-- C5 (amended): in the /user/create handle check, an HttpError with a
status other than NOT_FOUND is returned as an error response before any
creation step; a found profile yields CONFLICT; but a NOT_FOUND HttpError and
any non-HttpError exception are swallowed by the inner catch and creation
proceeds. -/
theorem c5_handle_check_error_policy
    (body : CreateUserBody) (env : CreateUserEnv) (secret : String) (mix : Bool)
    (hE : falsy body.email = false) (hP : falsy body.password = false) :
    (∀ he : HttpError, env.handleCheck = Except.error (Err.http he) →
       he.statusCode ≠ StatusCodes.NOT_FOUND →
       CreateUser body env secret mix = (.reply he.statusCode (.err he.message), [])) ∧
    (∀ p : Profile, env.handleCheck = Except.ok p →
       CreateUser body env secret mix =
         (.reply StatusCodes.CONFLICT (.err conflictMsg), [])) ∧
    (∀ he : HttpError, env.handleCheck = Except.error (Err.http he) →
       he.statusCode = StatusCodes.NOT_FOUND →
       CreateUser body env secret mix = createUserSteps body env secret mix) ∧
    (∀ t : String, env.handleCheck = Except.error (Err.js t) →
       CreateUser body env secret mix = createUserSteps body env secret mix) := by
  refine ⟨?_, ?_, ?_, ?_⟩
  · intro he hc hne
    unfold CreateUser
    simp [hE, hP, hc, hne]
  · intro p hc
    unfold CreateUser
    simp [hE, hP, hc]
  · intro he hc heq
    unfold CreateUser
    simp [hE, hP, hc, heq]
  · intro t hc
    unfold CreateUser
    simp [hE, hP, hc]

/-- Concrete witness for the amended C5: the handle check throws an HttpError
with status 503; the handler returns it with no creation step. -/
theorem c5_witness :
    CreateUser ⟨some "a@b.com", some "pw", "A", "abee"⟩
      ⟨Except.error (Err.http ⟨503, "db down"⟩),
       Except.ok ⟨"u1", "a@b.com", "A", "t0"⟩,
       Except.ok ⟨"p1", "u1", "abee"⟩,
       Except.ok ⟨"u1", "p1"⟩⟩ "sec" false =
      (.reply 503 (.err "db down"), []) :=
  (c5_handle_check_error_policy ⟨some "a@b.com", some "pw", "A", "abee"⟩
    ⟨Except.error (Err.http ⟨503, "db down"⟩),
     Except.ok ⟨"u1", "a@b.com", "A", "t0"⟩,
     Except.ok ⟨"p1", "u1", "abee"⟩,
     Except.ok ⟨"u1", "p1"⟩⟩ "sec" false rfl rfl).1
    ⟨503, "db down"⟩ rfl (by decide)

/-- C6: the three stub routes /user/update, /user/delete and
/user/data-package reply NOT_IMPLEMENTED (501) with a generic error payload
for a request body of any type whatsoever (including malformed bodies), and
perform no database or analytics effect. -/
theorem c6_stub_routes {β : Type} (body : β) :
    UpdateUser body = (.reply StatusCodes.NOT_IMPLEMENTED (.err stubMsg), []) ∧
    DeleteUser body = (.reply StatusCodes.NOT_IMPLEMENTED (.err stubMsg), []) ∧
    GetUserDataPackage body = (.reply StatusCodes.NOT_IMPLEMENTED (.err stubMsg), []) :=
  ⟨rfl, rfl, rfl⟩

lemma createUserSteps_ok_shape (body : CreateUserBody) (env : CreateUserEnv)
    (secret : String) (mix : Bool) (u : User) (p : Profile) (tok : SignedToken)
    (h : (createUserSteps body env secret mix).fst =
      HandlerResult.reply StatusCodes.OK (ReplyBody.created u p tok)) :
    tok = jwtSign ⟨u.email⟩ secret 168 ∧ env.createUserRes = Except.ok u := by
  unfold createUserSteps at h
  cases hcu : env.createUserRes with
  | error e =>
    rw [hcu] at h
    cases e with
    | http he => simp at h
    | js t => simp at h
  | ok user =>
    rw [hcu] at h
    cases hcp : env.createProfileRes with
    | error e =>
      rw [hcp] at h
      cases e with
      | http he => simp at h
      | js t => simp at h
    | ok profile =>
      rw [hcp] at h
      cases hsa : env.setActiveRes with
      | error e =>
        rw [hsa] at h
        cases e with
        | http he => simp at h
        | js t => simp at h
      | ok a =>
        rw [hsa] at h
        simp only [HandlerResult.reply.injEq, ReplyBody.created.injEq] at h
        obtain ⟨-, hu, hp, htok⟩ := h
        constructor
        · rw [← htok, hu]
        · exact congrArg Except.ok hu

/-- C7: whenever /user/create succeeds (replies 200 with a created-user
body), the token in the response is produced by jwt.sign with the configured
secret, its payload is exactly the email of the created user, and its expiry is
exactly 168 hours after issuance. -/
theorem c7_signed_token (body : CreateUserBody) (env : CreateUserEnv)
    (secret : String) (mix : Bool) (u : User) (p : Profile) (tok : SignedToken)
    (h : (CreateUser body env secret mix).fst =
      HandlerResult.reply StatusCodes.OK (ReplyBody.created u p tok)) :
    tok = jwtSign ⟨u.email⟩ secret 168 ∧
    tok.payload = ⟨u.email⟩ ∧ tok.secret = secret ∧ tok.expiresInHours = 168 ∧
    env.createUserRes = Except.ok u := by
  unfold CreateUser at h
  by_cases hE : falsy body.email
  · simp [hE] at h
  · by_cases hP : falsy body.password
    · simp [hE, hP] at h
    · simp only [hE, hP, Bool.false_eq_true, if_false] at h
      cases hc : env.handleCheck with
      | ok q => rw [hc] at h; simp at h
      | error e =>
        rw [hc] at h
        cases e with
        | js t =>
          obtain ⟨htok, hcu⟩ := createUserSteps_ok_shape body env secret mix u p tok h
          exact ⟨htok, by rw [htok, jwtSign], by rw [htok, jwtSign], by rw [htok, jwtSign], hcu⟩
        | http he =>
          by_cases hs : he.statusCode = StatusCodes.NOT_FOUND
          · simp only [hs, ne_eq, not_true_eq_false, if_false] at h
            obtain ⟨htok, hcu⟩ := createUserSteps_ok_shape body env secret mix u p tok h
            exact ⟨htok, by rw [htok, jwtSign], by rw [htok, jwtSign], by rw [htok, jwtSign], hcu⟩
          · simp [hs] at h

/-- Concrete witness for C7: a fully successful creation; the returned token
is signed with secret "sec", payload email "a@b.com", 168-hour expiry. -/
theorem c7_witness :
    jwtSign ⟨"a@b.com"⟩ "sec" 168 = jwtSign ⟨("a@b.com" : String)⟩ "sec" 168 ∧
    (jwtSign ⟨"a@b.com"⟩ "sec" 168).payload = ⟨("a@b.com" : String)⟩ ∧
    (jwtSign ⟨"a@b.com"⟩ "sec" 168).secret = "sec" ∧
    (jwtSign ⟨"a@b.com"⟩ "sec" 168).expiresInHours = 168 ∧
    (⟨Except.error (Err.http ⟨StatusCodes.NOT_FOUND, "The profile couldn\x27t be found."⟩),
      Except.ok ⟨"u1", "a@b.com", "A", "t0"⟩,
      Except.ok ⟨"p1", "u1", "abee"⟩,
      Except.ok ⟨"u1", "p1"⟩⟩ : CreateUserEnv).createUserRes =
        Except.ok ⟨"u1", "a@b.com", "A", "t0"⟩ :=
  c7_signed_token ⟨some "a@b.com", some "pw", "A", "abee"⟩
    ⟨Except.error (Err.http ⟨StatusCodes.NOT_FOUND, "The profile couldn\x27t be found."⟩),
     Except.ok ⟨"u1", "a@b.com", "A", "t0"⟩,
     Except.ok ⟨"p1", "u1", "abee"⟩,
     Except.ok ⟨"u1", "p1"⟩⟩ "sec" false
    ⟨"u1", "a@b.com", "A", "t0"⟩ ⟨"p1", "u1", "abee"⟩
    (jwtSign ⟨"a@b.com"⟩ "sec" 168) rfl

/-- C9 counterexample: during /user/create the handle check throws an
HttpError carrying the explicit status code NOT_FOUND (404), yet the handler
neither responds with that status code nor lets the error propagate: it
replies 200 with a success body. -/
theorem c9_notfound_error_not_translated :
    (CreateUser ⟨some "a@b.com", some "pw", "A", "abee"⟩
      ⟨Except.error (Err.http ⟨StatusCodes.NOT_FOUND, "The profile couldn\x27t be found."⟩),
       Except.ok ⟨"u1", "a@b.com", "A", "t0"⟩,
       Except.ok ⟨"p1", "u1", "abee"⟩,
       Except.ok ⟨"u1", "p1"⟩⟩ "sec" false).fst =
      HandlerResult.reply StatusCodes.OK
        (.created ⟨"u1", "a@b.com", "A", "t0"⟩ ⟨"p1", "u1", "abee"⟩
          (jwtSign ⟨"a@b.com"⟩ "sec" 168)) ∧
    StatusCodes.OK ≠ StatusCodes.NOT_FOUND :=
  ⟨rfl, by decide⟩

/-- C9 (amended): in every handler of the user controller — LoginUser,
CreateUser, UserRequestResetPassword, ResetUserPassword, SetActiveProfile —
every error reaching the outer catch is translated: an HttpError becomes a
reply with its status code and an error-shaped body, and any other error
propagates uncaught.  (For CreateUser this covers an error from any of the
three creation calls, reached when the handle check threw NOT_FOUND.)  The
exception to the policy is the inner handle-check catch of CreateUser, which
swallows NOT_FOUND HttpErrors and non-HttpErrors. -/
theorem c9_outer_catch_translation :
    (∀ (body : LoginUserBody) (he : HttpError) (mix : Bool),
       falsy body.email = false → falsy body.password = false →
       LoginUser body (Except.error (Err.http he)) mix =
         (.reply he.statusCode (.err he.message), [])) ∧
    (∀ (body : LoginUserBody) (t : String) (mix : Bool),
       falsy body.email = false → falsy body.password = false →
       LoginUser body (Except.error (Err.js t)) mix = (.uncaught t, [])) ∧
    (∀ (body : CreateUserBody) (env : CreateUserEnv) (secret : String)
       (mix : Bool) (nf he : HttpError),
       falsy body.email = false → falsy body.password = false →
       env.handleCheck = Except.error (Err.http nf) →
       nf.statusCode = StatusCodes.NOT_FOUND →
       env.createUserRes = Except.error (Err.http he) →
       CreateUser body env secret mix =
         (.reply he.statusCode (.err he.message),
          [Effect.svcCreateUser (body.email.getD "") (body.password.getD "") body.name])) ∧
    (∀ (body : CreateUserBody) (env : CreateUserEnv) (secret : String)
       (mix : Bool) (nf : HttpError) (t : String),
       falsy body.email = false → falsy body.password = false →
       env.handleCheck = Except.error (Err.http nf) →
       nf.statusCode = StatusCodes.NOT_FOUND →
       env.createUserRes = Except.error (Err.js t) →
       CreateUser body env secret mix =
         (.uncaught t,
          [Effect.svcCreateUser (body.email.getD "") (body.password.getD "") body.name])) ∧
    (∀ (body : CreateUserBody) (env : CreateUserEnv) (secret : String)
       (mix : Bool) (nf he : HttpError) (u : User),
       falsy body.email = false → falsy body.password = false →
       env.handleCheck = Except.error (Err.http nf) →
       nf.statusCode = StatusCodes.NOT_FOUND →
       env.createUserRes = Except.ok u →
       env.createProfileRes = Except.error (Err.http he) →
       CreateUser body env secret mix =
         (.reply he.statusCode (.err he.message),
          [Effect.svcCreateUser (body.email.getD "") (body.password.getD "") body.name,
           Effect.svcCreateProfile u.id body.handle])) ∧
    (∀ (body : CreateUserBody) (env : CreateUserEnv) (secret : String)
       (mix : Bool) (nf : HttpError) (u : User) (t : String),
       falsy body.email = false → falsy body.password = false →
       env.handleCheck = Except.error (Err.http nf) →
       nf.statusCode = StatusCodes.NOT_FOUND →
       env.createUserRes = Except.ok u →
       env.createProfileRes = Except.error (Err.js t) →
       CreateUser body env secret mix =
         (.uncaught t,
          [Effect.svcCreateUser (body.email.getD "") (body.password.getD "") body.name,
           Effect.svcCreateProfile u.id body.handle])) ∧
    (∀ (body : CreateUserBody) (env : CreateUserEnv) (secret : String)
       (mix : Bool) (nf he : HttpError) (u : User) (p : Profile),
       falsy body.email = false → falsy body.password = false →
       env.handleCheck = Except.error (Err.http nf) →
       nf.statusCode = StatusCodes.NOT_FOUND →
       env.createUserRes = Except.ok u →
       env.createProfileRes = Except.ok p →
       env.setActiveRes = Except.error (Err.http he) →
       CreateUser body env secret mix =
         (.reply he.statusCode (.err he.message),
          [Effect.svcCreateUser (body.email.getD "") (body.password.getD "") body.name,
           Effect.svcCreateProfile u.id body.handle,
           Effect.svcSetActiveProfile u.id p.id])) ∧
    (∀ (body : CreateUserBody) (env : CreateUserEnv) (secret : String)
       (mix : Bool) (nf : HttpError) (u : User) (p : Profile) (t : String),
       falsy body.email = false → falsy body.password = false →
       env.handleCheck = Except.error (Err.http nf) →
       nf.statusCode = StatusCodes.NOT_FOUND →
       env.createUserRes = Except.ok u →
       env.createProfileRes = Except.ok p →
       env.setActiveRes = Except.error (Err.js t) →
       CreateUser body env secret mix =
         (.uncaught t,
          [Effect.svcCreateUser (body.email.getD "") (body.password.getD "") body.name,
           Effect.svcCreateProfile u.id body.handle,
           Effect.svcSetActiveProfile u.id p.id])) ∧
    (∀ (body : UserRequestResetPasswordBody) (he : HttpError) (mix : Bool),
       falsy body.email = false →
       UserRequestResetPassword body (Except.error (Err.http he)) mix =
         (.reply he.statusCode (.err he.message),
          [Effect.svcSendPasswordResetEmail (body.email.getD "")])) ∧
    (∀ (body : UserRequestResetPasswordBody) (t : String) (mix : Bool),
       falsy body.email = false →
       UserRequestResetPassword body (Except.error (Err.js t)) mix =
         (.uncaught t, [Effect.svcSendPasswordResetEmail (body.email.getD "")])) ∧
    (∀ (body : ResetUserPasswordBody) (he : HttpError),
       falsy body.token = false → falsy body.password = false →
       ResetUserPassword body (Except.error (Err.http he)) =
         (.reply he.statusCode (.err he.message),
          [Effect.svcSetPasswordWithToken (body.token.getD "") (body.password.getD "")])) ∧
    (∀ (body : ResetUserPasswordBody) (t : String),
       falsy body.token = false → falsy body.password = false →
       ResetUserPassword body (Except.error (Err.js t)) =
         (.uncaught t,
          [Effect.svcSetPasswordWithToken (body.token.getD "") (body.password.getD "")])) ∧
    (∀ (body : SetActiveProfileBody) (env : SetActiveProfileEnv)
       (he : HttpError) (mix : Bool),
       falsy body.newProfileId = false →
       env.getProfileRes = Except.error (Err.http he) →
       SetActiveProfile body env mix = (.reply he.statusCode (.err he.message), [])) ∧
    (∀ (body : SetActiveProfileBody) (env : SetActiveProfileEnv)
       (t : String) (mix : Bool),
       falsy body.newProfileId = false →
       env.getProfileRes = Except.error (Err.js t) →
       SetActiveProfile body env mix = (.uncaught t, [])) ∧
    (∀ (body : SetActiveProfileBody) (env : SetActiveProfileEnv)
       (p : Profile) (he : HttpError) (mix : Bool),
       falsy body.newProfileId = false →
       env.getProfileRes = Except.ok p → body.authUser.id = p.userId →
       env.setActiveRes = Except.error (Err.http he) →
       SetActiveProfile body env mix =
         (.reply he.statusCode (.err he.message),
          (if mix then [Effect.track "user set active profile" body.authUser.id] else []) ++
          [Effect.svcSetActiveProfile body.authUser.id (body.newProfileId.getD "")])) ∧
    (∀ (body : SetActiveProfileBody) (env : SetActiveProfileEnv)
       (p : Profile) (t : String) (mix : Bool),
       falsy body.newProfileId = false →
       env.getProfileRes = Except.ok p → body.authUser.id = p.userId →
       env.setActiveRes = Except.error (Err.js t) →
       SetActiveProfile body env mix =
         (.uncaught t,
          (if mix then [Effect.track "user set active profile" body.authUser.id] else []) ++
          [Effect.svcSetActiveProfile body.authUser.id (body.newProfileId.getD "")])) := by
  refine ⟨?_, ?_, ?_, ?_, ?_, ?_, ?_, ?_, ?_, ?_, ?_, ?_, ?_, ?_, ?_, ?_⟩
  · intro body he mix hE hP
    unfold LoginUser
    simp [hE, hP]
  · intro body t mix hE hP
    unfold LoginUser
    simp [hE, hP]
  · intro body env secret mix nf he hE hP hhc hnf hcu
    unfold CreateUser createUserSteps
    simp [hE, hP, hhc, hnf, hcu]
  · intro body env secret mix nf t hE hP hhc hnf hcu
    unfold CreateUser createUserSteps
    simp [hE, hP, hhc, hnf, hcu]
  · intro body env secret mix nf he u hE hP hhc hnf hcu hcp
    unfold CreateUser createUserSteps
    simp [hE, hP, hhc, hnf, hcu, hcp]
  · intro body env secret mix nf u t hE hP hhc hnf hcu hcp
    unfold CreateUser createUserSteps
    simp [hE, hP, hhc, hnf, hcu, hcp]
  · intro body env secret mix nf he u p hE hP hhc hnf hcu hcp hsa
    unfold CreateUser createUserSteps
    simp [hE, hP, hhc, hnf, hcu, hcp, hsa]
  · intro body env secret mix nf u p t hE hP hhc hnf hcu hcp hsa
    unfold CreateUser createUserSteps
    simp [hE, hP, hhc, hnf, hcu, hcp, hsa]
  · intro body he mix hE
    unfold UserRequestResetPassword
    simp [hE]
  · intro body t mix hE
    unfold UserRequestResetPassword
    simp [hE]
  · intro body he hT hP
    unfold ResetUserPassword
    simp [hT, hP]
  · intro body t hT hP
    unfold ResetUserPassword
    simp [hT, hP]
  · intro body env he mix hv hg
    unfold SetActiveProfile
    simp [hv, hg]
  · intro body env t mix hv hg
    unfold SetActiveProfile
    simp [hv, hg]
  · intro body env p he mix hv hg hown hs
    unfold SetActiveProfile
    simp [hv, hg, hown, hs]
  · intro body env p t mix hv hg hown hs
    unfold SetActiveProfile
    simp [hv, hg, hown, hs]

/-- Concrete witness for the amended C9: a login whose service call throws an
HttpError with status 403 is answered 403 with an error body. -/
theorem c9_witness :
    LoginUser ⟨some "a@b.com", some "pw"⟩
      (Except.error (Err.http ⟨403, "Banned."⟩)) false =
      (.reply 403 (.err "Banned."), []) :=
  (c9_outer_catch_translation).1 ⟨some "a@b.com", some "pw"⟩ ⟨403, "Banned."⟩
    false rfl rfl

/-- C10: a /user/reset-password request missing the token or the password
field, and a /user/set-active-profile request missing the newProfileId field,
are all answered 400 with the literal message "No email was provided." —
not a message naming the field actually missing. -/
theorem c10_wrong_missing_field_message
    (rb : ResetUserPasswordBody) (setRes : Except Err Unit)
    (sb : SetActiveProfileBody) (env : SetActiveProfileEnv) (mix : Bool)
    (h1 : falsy rb.token = true ∨ falsy rb.password = true)
    (h2 : falsy sb.newProfileId = true) :
    ResetUserPassword rb setRes =
      (.reply StatusCodes.BAD_REQUEST (.err "No email was provided."), []) ∧
    SetActiveProfile sb env mix =
      (.reply StatusCodes.BAD_REQUEST (.err "No email was provided."), []) := by
  constructor
  · unfold ResetUserPassword
    by_cases ht : falsy rb.token
    · simp [ht]
    · have hp : falsy rb.password = true := by
        rcases h1 with h | h
        · exact absurd h ht
        · exact h
      simp [ht, hp]
  · unfold SetActiveProfile
    simp [h2]

/-- Concrete witness for C10: a reset-password body missing its token and a
set-active-profile body missing newProfileId; both get the email message. -/
theorem c10_witness :
    ResetUserPassword ⟨none, some "pw"⟩ (Except.ok ()) =
      (.reply StatusCodes.BAD_REQUEST (.err "No email was provided."), []) ∧
    SetActiveProfile ⟨⟨"userA", "a@b.com", "A", "t0"⟩, none⟩
      ⟨Except.ok ⟨"p1", "userA", "bee"⟩, Except.ok ⟨"userA", "p1"⟩⟩ false =
      (.reply StatusCodes.BAD_REQUEST (.err "No email was provided."), []) :=
  c10_wrong_missing_field_message ⟨none, some "pw"⟩ (Except.ok ())
    ⟨⟨"userA", "a@b.com", "A", "t0"⟩, none⟩
    ⟨Except.ok ⟨"p1", "userA", "bee"⟩, Except.ok ⟨"userA", "p1"⟩⟩ false
    (Or.inl rfl) rfl

end PractiseLink
